import Mathlib

/-!
Verification development for `kubectx-timeout`, a daemon that switches the
active kubectl context back to a configured safe default after a period of
inactivity.

The Go sources are shallowly embedded:
* time instants are `Int` (Go `time.Time`; `0` models the zero time, so
  `IsZero` becomes `= 0`); durations are `Int` (Go `time.Duration`);
* the on-disk activity record (`internal/state.go`) is a `StateFile` value:
  `missing`, `corrupt` (unparsable JSON), or `good s` for a parsed record;
  writes are modelled as always succeeding (a functioning file system),
  which is the only idealisation;
* the external tool (`kubectl`) is a `KubeEnv` holding the raw stdout of
  `config current-context` and `config get-contexts -o name` (`none` models
  a failing command); invoking `config use-context` is modelled as setting
  the current context to the target, and every spawned child process is
  recorded in a `Cmd` trace;
* Go `strings.TrimSpace`, `strings.Split(s, "\n")`, `strings.ToLower` and
  `strings.Contains` are re-implemented over `List Char` (`trimS`,
  `splitNl`, `lowerStr`, `strContains`) so that everything reduces in the
  kernel; ASCII behaviour coincides with Go's;
* Go maps become association lists; `filepath.Join` on the concrete
  absolute paths used here is plain `/`-concatenation.
-/

namespace Kct

/-! ## String helpers (Go `strings` package, ASCII fragment) -/

/-- Drop leading whitespace characters from a character list. -/
def dropWS : List Char → List Char
  | [] => []
  | c :: cs => if c.isWhitespace then dropWS cs else c :: cs

/-- Go `strings.TrimSpace` (ASCII whitespace). -/
def trimS (s : String) : String :=
  ⟨(dropWS ((dropWS s.data).reverse)).reverse⟩

/-- Auxiliary for `splitNl`: accumulates the current field (reversed). -/
def splitNlAux : List Char → List Char → List String
  | [], acc => [⟨acc.reverse⟩]
  | c :: cs, acc =>
    if c = '\n' then ⟨acc.reverse⟩ :: splitNlAux cs [] else splitNlAux cs (c :: acc)

/-- Go `strings.Split(s, "\n")`. -/
def splitNl (s : String) : List String := splitNlAux s.data []

/-- Go `strings.ToLower` (ASCII). -/
def lowerStr (s : String) : String := ⟨s.data.map Char.toLower⟩

/-- `isPreL pat l` is true iff `pat` is an initial segment of `l`. -/
def isPreL : List Char → List Char → Bool
  | [], _ => true
  | _ :: _, [] => false
  | a :: as, b :: bs => a == b && isPreL as bs

/-- `hasSubL pat l` is true iff `pat` occurs contiguously inside `l`. -/
def hasSubL (pat : List Char) : List Char → Bool
  | [] => isPreL pat []
  | c :: cs => isPreL pat (c :: cs) || hasSubL pat cs

/-- Go `strings.Contains s sub`. -/
def strContains (s sub : String) : Bool := hasSubL sub.data s.data

/-! ## Activity record (`internal/state.go`) -/

/-- Parsed contents of the state file (Go `State`; the mutex is erased). -/
structure StateData where
  lastActivity : Int
  currentContext : String
  version : Int
deriving DecidableEq

/-- `stateVersion` from `state.go`. -/
def stateVersion : Int := 1

/-- The on-disk state file as the reader can find it. -/
inductive StateFile
  | missing
  | corrupt
  | good (s : StateData)
deriving DecidableEq

/-- `StateManager.Load`: a missing file yields the empty default record,
corrupted content is a parse error, and a record with a version newer than
`stateVersion` is rejected. -/
def stateLoad : StateFile → Except String StateData
  | .missing => .ok ⟨0, "", stateVersion⟩
  | .corrupt => .error "failed to parse state file"
  | .good s =>
    if stateVersion < s.version then .error "state file version newer than supported"
    else .ok s

/-- `StateManager.Save`: forces the version and commits atomically
(write-then-rename; modelled as always succeeding). -/
def stateSave (s : StateData) : StateFile :=
  .good { s with version := stateVersion }

/-- `StateManager.RecordActivity`: load, stamp `now` and the observed
context, save.  A failing load aborts without writing. -/
def stateRecordActivity (f : StateFile) (now : Int) (context : String) :
    Except String Unit × StateFile :=
  match stateLoad f with
  | .error e => (.error ("failed to load state: " ++ e), f)
  | .ok s => (.ok (), stateSave { s with lastActivity := now, currentContext := context })

/-- `StateManager.GetLastActivity`. -/
def getLastActivity (f : StateFile) : Except String (Int × String) :=
  match stateLoad f with
  | .error e => .error e
  | .ok s => .ok (s.lastActivity, s.currentContext)

/-- The 24-hour sentinel `TimeSinceLastActivity` returns for a zero
timestamp, in nanoseconds (`24 * time.Hour`). -/
def day24 : Int := 86400000000000

/-- `StateManager.TimeSinceLastActivity`. -/
def timeSinceLastActivity (f : StateFile) (now : Int) : Except String Int :=
  match stateLoad f with
  | .error e => .error e
  | .ok s => if s.lastActivity = 0 then .ok day24 else .ok (now - s.lastActivity)

/-! ## The external tool (`internal/tracker.go`, `internal/switcher.go`) -/

/-- Observable state of the external context tool: raw stdout of
`kubectl config current-context` and of
`kubectl config get-contexts -o name` (`none` = the command fails). -/
structure KubeEnv where
  rawCurrent : Option String
  rawContexts : Option String
deriving DecidableEq

/-- One spawned child process. -/
inductive Cmd
  | currentCtx
  | listCtx
  | useCtx (name : String)
deriving DecidableEq

/-- `GetCurrentContext` (`tracker.go`): trim the output and reject an empty
result. -/
def GetCurrentContext (raw : Option String) : Except String String :=
  match raw with
  | none => .error "failed to get current context"
  | some out =>
    if trimS out = "" then .error "no current context set" else .ok (trimS out)

/-- `GetAvailableContexts` (`switcher.go`): trim, then split on newlines;
empty output is the empty list. -/
def GetAvailableContexts (raw : Option String) : Except String (List String) :=
  match raw with
  | none => .error "failed to list contexts"
  | some out =>
    if trimS out = "" then .ok [] else .ok (splitNl (trimS out))

/-- `ContextSwitcher.SwitchContext`: read the current context, no-op if it
already equals the target, otherwise validate the target against the listed
contexts and only then run `kubectl config use-context` (modelled as an
environment update; the retry loop succeeds on the first attempt).  The
second component is the trace of spawned child processes. -/
def SwitchContext (env : KubeEnv) (targetContext : String) :
    Except String KubeEnv × List Cmd :=
  match GetCurrentContext env.rawCurrent with
  | .error e => (.error ("failed to get current context: " ++ e), [.currentCtx])
  | .ok currentContext =>
    if currentContext = targetContext then (.ok env, [.currentCtx])
    else
      match GetAvailableContexts env.rawContexts with
      | .error e => (.error e, [.currentCtx, .listCtx])
      | .ok contexts =>
        if contexts.contains targetContext then
          (.ok { env with rawCurrent := some targetContext },
            [.currentCtx, .listCtx, .useCtx targetContext])
        else
          (.error ("context does not exist"), [.currentCtx, .listCtx])

/-- `ContextSwitcher.SwitchContextSafe`: refuse a target on the
`never_switch_to` list before touching the external tool. -/
def SwitchContextSafe (env : KubeEnv) (targetContext : String)
    (neverSwitchTo : List String) : Except String KubeEnv × List Cmd :=
  if neverSwitchTo.contains targetContext then
    (.error ("cannot switch to context: it is in the never_switch_to list"), [])
  else SwitchContext env targetContext

/-! ## Configuration (`internal/config.go`) -/

/-- `TimeoutConfig`. -/
structure TimeoutConfig where
  default : Int
  checkInterval : Int
deriving DecidableEq

/-- Per-context settings (Go type `Context`). -/
structure ContextOverride where
  timeout : Int
  confirmSwitch : Bool
deriving DecidableEq

/-- `DaemonConfig`. -/
structure DaemonConfig where
  enabled : Bool
  logLevel : String
  logFile : String
  logMaxSize : Int
  logMaxBackups : Int
deriving DecidableEq

/-- `NotificationConfig`. -/
structure NotificationConfig where
  enabled : Bool
  method : String
  message : String
deriving DecidableEq

/-- `SafetyConfig`. -/
structure SafetyConfig where
  checkActiveKubectl : Bool
  neverSwitchFrom : List String
  neverSwitchTo : List String
  validateDefaultContext : Bool
deriving DecidableEq

/-- `Config` (the `contexts` map becomes an association list). -/
structure Config where
  timeout : TimeoutConfig
  defaultContext : String
  contexts : List (String × ContextOverride)
  daemon : DaemonConfig
  notifications : NotificationConfig
  safety : SafetyConfig
  stateFile : String
deriving DecidableEq

/-- `Config.GetTimeoutForContext`: the per-context override if present,
else the default timeout. -/
def Config.GetTimeoutForContext (c : Config) (contextName : String) : Int :=
  match c.contexts.find? (fun p => p.1 == contextName) with
  | some p => p.2.timeout
  | none => c.timeout.default

/-- `Config.Validate`, check for check, in source order; `none` means the
configuration is accepted. -/
def Config.Validate (c : Config) : Option String :=
  if c.defaultContext = "" then
    some "default_context is required"
  else if c.defaultContext = "CONFIGURE_ME" then
    some "default_context must be configured"
  else if c.timeout.default ≤ 0 then
    some "timeout.default must be positive"
  else if c.timeout.checkInterval ≤ 0 then
    some "timeout.check_interval must be positive"
  else if c.timeout.default < c.timeout.checkInterval then
    some "timeout.check_interval must be less than timeout.default"
  else if !(["debug", "info", "warn", "error"].contains c.daemon.logLevel) then
    some "daemon.log_level must be one of: debug, info, warn, error"
  else if !(["terminal", "macos", "both"].contains c.notifications.method) then
    some "notifications.method must be one of: terminal, macos, both"
  else if c.contexts.any (fun p => decide (p.2.timeout ≤ 0)) then
    some "timeout for context must be positive"
  else if c.safety.validateDefaultContext
      && c.safety.neverSwitchTo.contains c.defaultContext then
    some "default_context is in never_switch_to list"
  else
    none

/-- Preferred safe patterns of `detectSafeDefaultContext`, in scan order. -/
def safePatterns : List String :=
  ["local", "docker-desktop", "minikube", "kind-", "dev", "development", "test"]

/-- Dangerous patterns of `detectSafeDefaultContext`. -/
def dangerousPatterns : List String :=
  ["prod", "production", "stage", "staging", "prd"]

/-- The dangerous-pattern test inside `detectSafeDefaultContext`. -/
def isDangerousName (ctxLower : String) : Bool :=
  dangerousPatterns.any (fun danger => strContains ctxLower danger)

/-- Inner loop of `detectSafeDefaultContext`: first listed context whose
lowercased name contains `pat` and no dangerous pattern. -/
def scanCtxs (pat : String) : List String → Option String
  | [] => none
  | ctx :: rest =>
    if strContains (lowerStr ctx) pat && !isDangerousName (lowerStr ctx) then some ctx
    else scanCtxs pat rest

/-- Outer loop of `detectSafeDefaultContext` over the safe patterns. -/
def scanPatterns : List String → List String → Option String
  | [], _ => none
  | pat :: pats, ctxs =>
    match scanCtxs pat ctxs with
    | some ctx => some ctx
    | none => scanPatterns pats ctxs

/-- `detectSafeDefaultContext`, applied to the context list obtained from
the external tool (a failing or empty listing yields the sentinel). -/
def detectSafeDefaultContext (contexts : List String) : String :=
  if contexts.isEmpty then "CONFIGURE_ME"
  else
    match scanPatterns safePatterns contexts with
    | some ctx => ctx
    | none => "CONFIGURE_ME"

/-! ## Path resolution (`internal/paths.go`) -/

/-- Environment consumed by the path resolver; `xdgConfigHome = ""` models
an unset `XDG_CONFIG_HOME`, `home = none` a failing `os.UserHomeDir`. -/
structure PathEnv where
  xdgConfigHome : String
  home : Option String
deriving DecidableEq

/-- `GetConfigDir`. -/
def GetConfigDir (e : PathEnv) : String :=
  if e.xdgConfigHome ≠ "" then e.xdgConfigHome ++ "/kubectx-timeout"
  else
    match e.home with
    | some h => h ++ "/.config/kubectx-timeout"
    | none => "/tmp/kubectx-timeout"

/-- `GetConfigPath`. -/
def GetConfigPath (e : PathEnv) : String := GetConfigDir e ++ "/config.yaml"

/-- `NewDaemonWithPIDFile` loads the startup configuration from the
`configPath` argument the daemon is constructed with. -/
def newDaemonConfigSource (configPath : String) : String := configPath

/-- `Daemon.ReloadConfig` loads from `GetConfigPath()`; the `Daemon` struct
retains no record of the path it was constructed with, so the constructed
path cannot and does not influence the reload. -/
def reloadConfigSource (_constructedPath : String) (e : PathEnv) : String :=
  GetConfigPath e

/-! ## Kubeconfig watcher (`KubeconfigWatcher`) -/

/-- Path resolution in `NewKubeconfigWatcher`: the raw `KUBECONFIG` value if
non-empty (taken whole, with no list splitting), else `~/.kube/config`. -/
def watcherKubeconfigPath (kubeconfigEnv : String) (home : Option String) :
    Except String String :=
  if kubeconfigEnv ≠ "" then .ok kubeconfigEnv
  else
    match home with
    | some h => .ok (h ++ "/.kube/config")
    | none => .error "failed to get home directory"

/-- `KubeconfigWatcher.handleConfigChange`: re-read the current context
(skipping the event if that fails), then record activity whether or not the
context changed; a failing state load is propagated. -/
def handleConfigChange (env : KubeEnv) (f : StateFile) (now : Int) :
    Except String Unit × StateFile :=
  match GetCurrentContext env.rawCurrent with
  | .error _ => (.ok (), f)
  | .ok currentContext =>
    match getLastActivity f with
    | .error _ => stateRecordActivity f now currentContext
    | .ok last =>
      if last.2 ≠ currentContext then stateRecordActivity f now currentContext
      else stateRecordActivity f now currentContext

/-! ## Daemon (`internal/daemon.go`) -/

/-- `Daemon.checkContextChangeOnStartup`: reset the activity timer on
startup when there is no usable record, the context changed while the
daemon was down, or the recorded timestamp is stale. -/
def checkContextChangeOnStartup (cfg : Config) (env : KubeEnv) (f : StateFile)
    (now : Int) : Except String Unit × StateFile :=
  match GetCurrentContext env.rawCurrent with
  | .error _ => (.ok (), f)
  | .ok currentContext =>
    match getLastActivity f with
    | .error _ => stateRecordActivity f now currentContext
    | .ok last =>
      if last.1 = 0 then stateRecordActivity f now currentContext
      else if last.2 ≠ "" ∧ last.2 ≠ currentContext then
        stateRecordActivity f now currentContext
      else if cfg.GetTimeoutForContext currentContext < now - last.1 then
        stateRecordActivity f now currentContext
      else (.ok (), f)

/-- Everything one tick of the timeout engine produces. -/
structure TickResult where
  result : Except String Unit
  file : StateFile
  env : KubeEnv
  procs : List Cmd

/-- `Daemon.checkTimeout` plus `Daemon.switchContext`: one tick of the
timeout engine at instant `now`.  On a decided switch the activity record
is rewritten with the safe default context before the tick returns; a
failure of that write is logged but swallowed (the record is then left
unchanged). -/
def checkTimeout (cfg : Config) (env : KubeEnv) (f : StateFile) (now : Int) :
    TickResult :=
  match timeSinceLastActivity f now with
  | .error e => ⟨.error ("failed to get time since last activity: " ++ e), f, env, []⟩
  | .ok timeSince =>
    match GetCurrentContext env.rawCurrent with
    | .error _ => ⟨.ok (), f, env, [.currentCtx]⟩
    | .ok currentContext =>
      if cfg.safety.neverSwitchFrom.contains currentContext then
        ⟨.ok (), f, env, [.currentCtx]⟩
      else if currentContext = cfg.defaultContext then
        ⟨.ok (), f, env, [.currentCtx]⟩
      else if cfg.GetTimeoutForContext currentContext ≤ timeSince then
        match SwitchContextSafe env cfg.defaultContext cfg.safety.neverSwitchTo with
        | (.error e, procs) =>
          ⟨.error ("failed to switch context: " ++ e), f, env, .currentCtx :: procs⟩
        | (.ok envAfter, procs) =>
          ⟨.ok (), (stateRecordActivity f now cfg.defaultContext).2, envAfter,
            .currentCtx :: procs⟩
      else ⟨.ok (), f, env, [.currentCtx]⟩

/-! ## Single-shot activity tracker (`internal/tracker.go`) -/

/-- `ActivityTracker.RecordActivity`: if the current context cannot be
read, fall back to the literal name "unknown" and still record activity. -/
def trackerRecordActivity (rawCurrent : Option String) (f : StateFile)
    (now : Int) : Except String Unit × StateFile :=
  let context :=
    match GetCurrentContext rawCurrent with
    | .error _ => "unknown"
    | .ok c => c
  stateRecordActivity f now context

/-! ## Claim C4 — configuration reload path -/

/-- Claim C4 (code bug): on SIGHUP the daemon is claimed to reload from the
configuration path it was constructed with, but `Daemon.ReloadConfig` calls
`LoadConfig(GetConfigPath())`, re-resolving the XDG path; the `Daemon`
struct does not even retain the constructed path.  Concretely, a daemon
constructed with `/custom/config.yaml` under `XDG_CONFIG_HOME=/xdg` reloads
from `/xdg/kubectx-timeout/config.yaml` instead. -/
theorem C4_reload_ignores_constructed_path :
    reloadConfigSource "/custom/config.yaml" ⟨"/xdg", some "/home/user"⟩
        = "/xdg/kubectx-timeout/config.yaml"
      ∧ newDaemonConfigSource "/custom/config.yaml" = "/custom/config.yaml"
      ∧ reloadConfigSource "/custom/config.yaml" ⟨"/xdg", some "/home/user"⟩
        ≠ newDaemonConfigSource "/custom/config.yaml" :=
  ⟨rfl, rfl, by decide⟩

/-! ## Claim C7 — check interval vs default timeout -/

/-- A configuration whose check interval equals its default timeout and
which is otherwise unobjectionable. -/
def cfgC7 : Config :=
  ⟨⟨30, 30⟩, "local", [], ⟨true, "info", "", 0, 0⟩, ⟨true, "both", ""⟩,
    ⟨true, [], [], true⟩, "state.json"⟩

/-- Claim C7 (code bug): a check interval equal to the default inactivity
duration is claimed to fail validation, but `Config.Validate` only rejects
`CheckInterval > Default` (even though its own error message says
"must be less than"), so the equal configuration is accepted. -/
theorem C7_equal_interval_accepted :
    cfgC7.timeout.checkInterval = cfgC7.timeout.default
      ∧ Config.Validate cfgC7 = none :=
  ⟨rfl, rfl⟩

/-! ## Claim C9 — kubeconfig path resolution in the watcher -/

/-- Claim C9 (code bug): with `KUBECONFIG` set to a separator-joined list,
the watcher is claimed to resolve the first entry, but
`NewKubeconfigWatcher` takes `os.Getenv("KUBECONFIG")` whole without any
list splitting (the repository's `GetKubeconfigPath` helper and its test
`TestDaemonGetKubeconfigPath` expect `/path/one` here). -/
theorem C9_watcher_takes_whole_kubeconfig :
    watcherKubeconfigPath "/path/one:/path/two:/path/three" (some "/home/user")
        = .ok "/path/one:/path/two:/path/three"
      ∧ watcherKubeconfigPath "/path/one:/path/two:/path/three" (some "/home/user")
        ≠ .ok "/path/one" :=
  ⟨rfl, fun h => absurd (Except.ok.inj h) (by decide)⟩

/-! ## Claim C5 — default context in the never-switch-to set -/

/-- A configuration with `default_safe_context ∈ never_switch_to` but with
`safety.validate_default_context` disabled. -/
def cfgC5x : Config :=
  ⟨⟨100, 30⟩, "prod", [], ⟨true, "info", "", 0, 0⟩, ⟨true, "both", ""⟩,
    ⟨true, [], ["prod"], false⟩, "state.json"⟩

/-- Claim C5, counterexample: validation is claimed to reject a default
context on the never-switch-to list regardless of any other setting, but
with `safety.validate_default_context = false` the check is skipped and
`Config.Validate` accepts the configuration. -/
theorem C5_validation_bypassed_cex :
    cfgC5x.safety.neverSwitchTo.contains cfgC5x.defaultContext = true
      ∧ cfgC5x.safety.validateDefaultContext = false
      ∧ Config.Validate cfgC5x = none :=
  ⟨rfl, rfl, rfl⟩

/-- Claim C5, amended: whenever `safety.validate_default_context` is
enabled (its default), any configuration whose default safe context is a
member of the never-switch-to set fails validation, regardless of every
other setting. -/
theorem C5_default_in_never_switch_to_rejected (c : Config)
    (h1 : c.safety.validateDefaultContext = true)
    (h2 : c.safety.neverSwitchTo.contains c.defaultContext = true) :
    (Config.Validate c).isSome = true := by
  unfold Config.Validate
  repeat' split
  all_goals simp_all

/-- Like `cfgC5x` but with the validation flag enabled. -/
def cfgC5w : Config :=
  ⟨⟨100, 30⟩, "prod", [], ⟨true, "info", "", 0, 0⟩, ⟨true, "both", ""⟩,
    ⟨true, [], ["prod"], true⟩, "state.json"⟩

/-- Witness for the amended claim C5 at a concrete configuration. -/
theorem C5_default_in_never_switch_to_rejected_witness :
    cfgC5w.safety.validateDefaultContext = true
      ∧ cfgC5w.safety.neverSwitchTo.contains cfgC5w.defaultContext = true
      ∧ (Config.Validate cfgC5w).isSome = true :=
  ⟨rfl, rfl, C5_default_in_never_switch_to_rejected cfgC5w rfl rfl⟩

/-! ## Claim C10 — single-shot record-activity with unreadable context -/

/-- Claim C10: when the current context cannot be read, the single-shot
`ActivityTracker.RecordActivity` still succeeds and rewrites the activity
record with the literal observed-context name "unknown" and a fresh
timestamp (provided the record itself is loadable). -/
theorem C10_record_unknown (raw : Option String) (f : StateFile) (now : Int)
    (s : StateData) (e : String)
    (hfail : GetCurrentContext raw = .error e)
    (hload : stateLoad f = .ok s) :
    trackerRecordActivity raw f now
      = (.ok (), .good ⟨now, "unknown", stateVersion⟩) := by
  unfold trackerRecordActivity stateRecordActivity
  rw [hfail, hload]
  rfl

/-- Witness for claim C10: a failing `current-context` command and a
missing state file. -/
theorem C10_record_unknown_witness :
    GetCurrentContext none = .error "failed to get current context"
      ∧ stateLoad .missing = .ok ⟨0, "", stateVersion⟩
      ∧ trackerRecordActivity none .missing 3
        = (.ok (), .good ⟨3, "unknown", stateVersion⟩) :=
  ⟨rfl, rfl, C10_record_unknown none .missing 3 ⟨0, "", stateVersion⟩ _ rfl rfl⟩

/-! ## Claim C3 — parse errors are propagated, never papered over -/

/-- Claim C3: with a corrupted activity record, the state load fails with a
parse error, `RecordActivity` propagates that failure without writing (so
no component can substitute a default record over the corrupted one), and
both the daemon's startup reconciliation and the watcher's change handler
return the error and leave the record untouched. -/
theorem C3_parse_error_propagates (cfg : Config) (env : KubeEnv) (c : String)
    (now : Int) (hc : env.rawCurrent = some c) (hne : trimS c ≠ "") :
    stateLoad .corrupt = .error "failed to parse state file"
      ∧ (∀ ctx, stateRecordActivity .corrupt now ctx
          = (.error "failed to load state: failed to parse state file", .corrupt))
      ∧ (checkContextChangeOnStartup cfg env .corrupt now).2 = .corrupt
      ∧ (∃ e, (checkContextChangeOnStartup cfg env .corrupt now).1 = .error e)
      ∧ (handleConfigChange env .corrupt now).2 = .corrupt
      ∧ (∃ e, (handleConfigChange env .corrupt now).1 = .error e) := by
  have hcur : GetCurrentContext env.rawCurrent = .ok (trimS c) := by
    rw [hc]; simp [GetCurrentContext, hne]
  have h1 : checkContextChangeOnStartup cfg env .corrupt now
      = stateRecordActivity .corrupt now (trimS c) := by
    unfold checkContextChangeOnStartup
    rw [hcur]
    rfl
  have h2 : handleConfigChange env .corrupt now
      = stateRecordActivity .corrupt now (trimS c) := by
    unfold handleConfigChange
    rw [hcur]
    rfl
  refine ⟨rfl, fun ctx => rfl, ?_, ?_, ?_, ?_⟩
  · rw [h1]; rfl
  · exact ⟨"failed to load state: failed to parse state file", by rw [h1]; rfl⟩
  · rw [h2]; rfl
  · exact ⟨"failed to load state: failed to parse state file", by rw [h2]; rfl⟩

/-- An arbitrary valid configuration and a readable external context, used
to witness claim C3. -/
def cfgC3w : Config :=
  ⟨⟨100, 30⟩, "local", [], ⟨true, "info", "", 0, 0⟩, ⟨true, "both", ""⟩,
    ⟨true, [], [], true⟩, "state.json"⟩

/-- Witness for claim C3 over a corrupted record. -/
theorem C3_parse_error_propagates_witness :
    trimS "prod" ≠ ""
      ∧ (stateLoad .corrupt = .error "failed to parse state file"
          ∧ (∀ ctx, stateRecordActivity .corrupt 7 ctx
              = (.error "failed to load state: failed to parse state file", .corrupt))
          ∧ (checkContextChangeOnStartup cfgC3w ⟨some "prod", none⟩ .corrupt 7).2 = .corrupt
          ∧ (∃ e, (checkContextChangeOnStartup cfgC3w ⟨some "prod", none⟩ .corrupt 7).1 = .error e)
          ∧ (handleConfigChange ⟨some "prod", none⟩ .corrupt 7).2 = .corrupt
          ∧ (∃ e, (handleConfigChange ⟨some "prod", none⟩ .corrupt 7).1 = .error e)) :=
  ⟨by decide, C3_parse_error_propagates cfgC3w ⟨some "prod", none⟩ "prod" 7 rfl (by decide)⟩

/-! ## Claim C6 — switch-operation input validation -/

/-- The name fragments the claim quantifies over: shell metacharacters,
newline, NUL, and a path traversal segment. -/
def injectionNeedles : List String := [";", "|", "&", "`", "$", "\n", "\x00", "../"]

/-- A name containing one of the claim's dangerous fragments. -/
def hasInjection (name : String) : Bool :=
  injectionNeedles.any (fun needle => strContains name needle)

/-- External-tool state whose kubeconfig happens to define a context whose
name contains a `;`. -/
def envC6x : KubeEnv := ⟨some "safe", some "safe\nx;y"⟩

/-- Claim C6, counterexample: the switch operation performs no
character-level validation at all — its only check is membership in the
listed contexts — so a name containing `;` that exists as a context passes
validation, the use-context child process is invoked, and the switch
succeeds.  (Independently, even a rejected name causes the
read-current-context and list-contexts child processes to be spawned.) -/
theorem C6_injection_name_cex :
    hasInjection "x;y" = true
      ∧ (SwitchContext envC6x "x;y").1 = .ok ⟨some "x;y", some "safe\nx;y"⟩
      ∧ Cmd.useCtx "x;y" ∈ (SwitchContext envC6x "x;y").2 := by
  refine ⟨rfl, rfl, ?_⟩
  decide

/-- Claim C6, amended: for every name containing one of the dangerous
fragments, provided the name is neither the current context nor among the
listed contexts, the switch operation fails with the "context does not
exist" validation error and never invokes the context-switch (use-context)
child process; the read-current-context and list-contexts child processes
may still be invoked. -/
theorem C6_unlisted_name_fails_validation (env : KubeEnv)
    (name current : String) (contexts : List String)
    (hbad : hasInjection name = true)
    (hcur : GetCurrentContext env.rawCurrent = .ok current)
    (hne : current ≠ name)
    (hlist : GetAvailableContexts env.rawContexts = .ok contexts)
    (hmem : contexts.contains name = false) :
    (SwitchContext env name).1 = .error "context does not exist"
      ∧ ∀ t, Cmd.useCtx t ∉ (SwitchContext env name).2 := by
  have h : SwitchContext env name
      = (.error "context does not exist", [.currentCtx, .listCtx]) := by
    unfold SwitchContext
    rw [hcur]
    simp only [if_neg hne]
    rw [hlist]
    simp only [hmem, Bool.false_eq_true, if_false]
  refine ⟨by rw [h], fun t => by rw [h]; simp⟩

/-- External-tool state that does not list the hostile name. -/
def envC6w : KubeEnv := ⟨some "safe", some "safe\nother"⟩

/-- Witness for the amended claim C6. -/
theorem C6_unlisted_name_fails_validation_witness :
    hasInjection "x;y" = true
      ∧ (SwitchContext envC6w "x;y").1 = .error "context does not exist"
      ∧ ∀ t, Cmd.useCtx t ∉ (SwitchContext envC6w "x;y").2 := by
  have h := C6_unlisted_name_fails_validation envC6w "x;y" "safe"
    ["safe", "other"] rfl rfl (by decide) rfl (by decide)
  exact ⟨rfl, h.1, h.2⟩

/-! ## Claim C8 — the safe-default heuristic -/

/-- Soundness of the inner loop of `detectSafeDefaultContext`. -/
theorem scanCtxs_eq_some {pat : String} :
    ∀ {ctxs : List String} {ctx : String}, scanCtxs pat ctxs = some ctx →
      ctx ∈ ctxs ∧ strContains (lowerStr ctx) pat = true
        ∧ isDangerousName (lowerStr ctx) = false := by
  intro ctxs
  induction ctxs with
  | nil => intro ctx h; simp [scanCtxs] at h
  | cons c rest ih =>
    intro ctx h
    rw [scanCtxs] at h
    split at h
    next hc =>
      obtain rfl : c = ctx := Option.some.inj h
      have hc' : strContains (lowerStr c) pat = true
          ∧ isDangerousName (lowerStr c) = false := by simpa using hc
      exact ⟨List.mem_cons_self _ _, hc'.1, hc'.2⟩
    next hc =>
      obtain ⟨hm, h1, h2⟩ := ih h
      exact ⟨List.mem_cons_of_mem _ hm, h1, h2⟩

/-- Soundness of the outer loop of `detectSafeDefaultContext`. -/
theorem scanPatterns_eq_some :
    ∀ {pats ctxs : List String} {ctx : String},
      scanPatterns pats ctxs = some ctx →
      ctx ∈ ctxs ∧ (∃ pat ∈ pats, strContains (lowerStr ctx) pat = true)
        ∧ isDangerousName (lowerStr ctx) = false := by
  intro pats
  induction pats with
  | nil => intro ctxs ctx h; simp [scanPatterns] at h
  | cons p ps ih =>
    intro ctxs ctx h
    rw [scanPatterns] at h
    cases hs : scanCtxs p ctxs with
    | some c =>
      simp only [hs] at h
      obtain rfl : c = ctx := Option.some.inj h
      obtain ⟨hm, h1, h2⟩ := scanCtxs_eq_some hs
      exact ⟨hm, ⟨p, List.mem_cons_self _ _, h1⟩, h2⟩
    | none =>
      simp only [hs] at h
      obtain ⟨hm, ⟨pat, hp, h1⟩, h2⟩ := ih h
      exact ⟨hm, ⟨pat, List.mem_cons_of_mem _ hp, h1⟩, h2⟩

/-- Claim C8: for every list of available contexts, the safe-default
heuristic returns either the sentinel `CONFIGURE_ME` or a member of the
list whose lowercased name contains one of the safe patterns and contains
none of the dangerous patterns. -/
theorem C8_safe_default_heuristic (contexts : List String) :
    detectSafeDefaultContext contexts = "CONFIGURE_ME"
      ∨ (detectSafeDefaultContext contexts ∈ contexts
          ∧ (∃ pat ∈ safePatterns,
              strContains (lowerStr (detectSafeDefaultContext contexts)) pat = true)
          ∧ ∀ danger ∈ dangerousPatterns,
              strContains (lowerStr (detectSafeDefaultContext contexts)) danger
                = false) := by
  unfold detectSafeDefaultContext
  split
  · exact Or.inl rfl
  · cases hs : scanPatterns safePatterns contexts with
    | none => simp [hs]
    | some ctx =>
      simp only [hs]
      obtain ⟨hm, hsafe, hdanger⟩ := scanPatterns_eq_some hs
      refine Or.inr ⟨hm, hsafe, fun danger hd => ?_⟩
      unfold isDangerousName at hdanger
      have := List.any_eq_false.mp hdanger danger hd
      simpa using this

/-! ## Claim C2 — startup with a stale record -/

/-- A valid configuration in which the context `c` has a per-context
timeout (10) smaller than the check interval (30). -/
def cfgC2x : Config :=
  ⟨⟨100, 30⟩, "local", [("c", ⟨10, false⟩)], ⟨true, "info", "", 0, 0⟩,
    ⟨true, "both", ""⟩, ⟨true, [], [], true⟩, "state.json"⟩

/-- External-tool state for the C2 counterexample. -/
def envC2x : KubeEnv := ⟨some "c", some "c\nlocal"⟩

/-- Claim C2, counterexample: the configuration validates, the recorded
context equals the current one, the timestamp (45 time units old) exceeds
the effective timeout (10), startup duly resets the record to "now" — yet
the first tick, one check interval (30 ≥ 10) later, does attempt a switch,
because validation never relates per-context timeouts to the check
interval. -/
theorem C2_first_tick_switch_cex :
    Config.Validate cfgC2x = none
      ∧ cfgC2x.GetTimeoutForContext "c" < 50 - 5
      ∧ checkContextChangeOnStartup cfgC2x envC2x (.good ⟨5, "c", 1⟩) 50
        = (.ok (), .good ⟨50, "c", 1⟩)
      ∧ Cmd.useCtx "local"
        ∈ (checkTimeout cfgC2x envC2x (.good ⟨50, "c", 1⟩)
            (50 + cfgC2x.timeout.checkInterval)).procs := by
  refine ⟨rfl, by decide, rfl, ?_⟩
  decide

/-- Claim C2, amended: if at startup the current external context is
readable, the recorded context equals it, the recorded timestamp is
non-zero but older than the effective timeout for that context, then
startup resets the activity record to "now" for the current context, and —
provided the check interval is smaller than that effective timeout — the
first tick, one check interval later, performs no context switch. -/
theorem C2_startup_stale_reset (cfg : Config) (env : KubeEnv) (f : StateFile)
    (now : Int) (s : StateData) (current : String)
    (hcur : GetCurrentContext env.rawCurrent = .ok current)
    (hload : stateLoad f = .ok s)
    (hnz : s.lastActivity ≠ 0)
    (hrec : s.currentContext = current)
    (hstale : cfg.GetTimeoutForContext current < now - s.lastActivity)
    (hpos : 0 < now)
    (hci : cfg.timeout.checkInterval < cfg.GetTimeoutForContext current) :
    checkContextChangeOnStartup cfg env f now
        = (.ok (), .good ⟨now, current, stateVersion⟩)
      ∧ ∀ t, Cmd.useCtx t ∉
          (checkTimeout cfg env (.good ⟨now, current, stateVersion⟩)
            (now + cfg.timeout.checkInterval)).procs := by
  have hstartup : checkContextChangeOnStartup cfg env f now
      = (.ok (), .good ⟨now, current, stateVersion⟩) := by
    unfold checkContextChangeOnStartup getLastActivity
    rw [hcur, hload]
    simp only [hrec]
    rw [if_neg hnz, if_neg (by simp), if_pos hstale]
    unfold stateRecordActivity
    rw [hload]
    simp [stateSave, hrec]
  refine ⟨hstartup, fun t => ?_⟩
  have harith : now + cfg.timeout.checkInterval - now = cfg.timeout.checkInterval := by
    omega
  have hnn : ¬(now = 0) := by omega
  have hts : timeSinceLastActivity (.good ⟨now, current, stateVersion⟩)
      (now + cfg.timeout.checkInterval) = .ok cfg.timeout.checkInterval := by
    unfold timeSinceLastActivity stateLoad
    simp only []
    rw [if_neg (by decide : ¬((stateVersion : Int) < stateVersion))]
    simp only []
    rw [if_neg hnn, harith]
  have hprocs : (checkTimeout cfg env (.good ⟨now, current, stateVersion⟩)
      (now + cfg.timeout.checkInterval)).procs = [.currentCtx] := by
    unfold checkTimeout
    rw [hts, hcur]
    simp only []
    by_cases h1 : cfg.safety.neverSwitchFrom.contains current = true
    · rw [if_pos h1]
    · rw [if_neg h1]
      by_cases h2 : current = cfg.defaultContext
      · rw [if_pos h2]
      · rw [if_neg h2, if_neg (show ¬(cfg.GetTimeoutForContext current
            ≤ cfg.timeout.checkInterval) by omega)]
  rw [hprocs]
  simp

/-- A valid configuration with no per-context overrides, used to witness
the amended claim C2. -/
def cfgC2w : Config :=
  ⟨⟨100, 30⟩, "local", [], ⟨true, "info", "", 0, 0⟩, ⟨true, "both", ""⟩,
    ⟨true, [], [], true⟩, "state.json"⟩

/-- Witness for the amended claim C2: the daemon restarts at time 200 on
context "prod" with a record from time 5 (195 > 100 = effective timeout);
the record is reset and the first tick at 230 spawns no switch. -/
theorem C2_startup_stale_reset_witness :
    cfgC2w.GetTimeoutForContext "prod" < 200 - 5
      ∧ cfgC2w.timeout.checkInterval < cfgC2w.GetTimeoutForContext "prod"
      ∧ (checkContextChangeOnStartup cfgC2w ⟨some "prod", some "prod\nlocal"⟩
            (.good ⟨5, "prod", 1⟩) 200
          = (.ok (), .good ⟨200, "prod", stateVersion⟩)
        ∧ ∀ t, Cmd.useCtx t ∉
            (checkTimeout cfgC2w ⟨some "prod", some "prod\nlocal"⟩
              (.good ⟨200, "prod", stateVersion⟩)
              (200 + cfgC2w.timeout.checkInterval)).procs) :=
  ⟨by decide, by decide,
    C2_startup_stale_reset cfgC2w ⟨some "prod", some "prod\nlocal"⟩
      (.good ⟨5, "prod", 1⟩) 200 ⟨5, "prod", 1⟩ "prod"
      rfl rfl (by decide) rfl (by decide) (by decide) (by decide)⟩

/-! ## Claim C1 — loop closure after a successful switch -/

/-- A valid configuration whose default context carries a per-context
timeout (10) smaller than the check interval (30). -/
def cfgC1x : Config :=
  ⟨⟨100, 30⟩, "local", [("local", ⟨10, false⟩)], ⟨true, "info", "", 0, 0⟩,
    ⟨true, "both", ""⟩, ⟨true, [], [], true⟩, "state.json"⟩

/-- External-tool state for the C1 counterexample. -/
def envC1x : KubeEnv := ⟨some "prod", some "prod\nlocal"⟩

/-- Claim C1, counterexample: a tick at time 200 decides a switch (elapsed
195 ≥ 100) and the switch succeeds; the record is duly rewritten to
(200, "local"), but the very next tick, one check interval later, observes
elapsed 30 ≥ threshold 10 (the default context's own effective timeout), so
"the next tick observes elapsed < threshold" does not hold — only the
current-context-equals-default guard prevents a second switch. -/
theorem C1_elapsed_threshold_cex :
    Config.Validate cfgC1x = none
      ∧ (checkTimeout cfgC1x envC1x (.good ⟨5, "prod", 1⟩) 200).result = .ok ()
      ∧ Cmd.useCtx "local"
        ∈ (checkTimeout cfgC1x envC1x (.good ⟨5, "prod", 1⟩) 200).procs
      ∧ (checkTimeout cfgC1x envC1x (.good ⟨5, "prod", 1⟩) 200).file
        = .good ⟨200, "local", 1⟩
      ∧ timeSinceLastActivity
          (checkTimeout cfgC1x envC1x (.good ⟨5, "prod", 1⟩) 200).file
          (200 + cfgC1x.timeout.checkInterval) = .ok 30
      ∧ ¬(30 < cfgC1x.GetTimeoutForContext cfgC1x.defaultContext) := by
  refine ⟨rfl, rfl, by decide, rfl, rfl, by decide⟩

/-- A freshly rewritten record read one check interval later yields exactly
the check interval as the elapsed time. -/
theorem timeSince_of_fresh (ctx : String) (now ci : Int) (hnn : ¬(now = 0)) :
    timeSinceLastActivity (.good ⟨now, ctx, stateVersion⟩) (now + ci) = .ok ci := by
  have harith : now + ci - now = ci := by omega
  unfold timeSinceLastActivity stateLoad
  simp only []
  rw [if_neg (by decide : ¬((stateVersion : Int) < stateVersion))]
  simp only []
  rw [if_neg hnn, harith]

/-- Claim C1, amended: on every tick that decides a context switch and
whose switch through the adapter succeeds, the activity record is rewritten
with the safe default context as the observed context and a fresh timestamp
before the tick returns, and the very next tick performs no second switch;
additionally, whenever the check interval is smaller than the effective
timeout of the default context, that next tick also observes
elapsed < threshold. -/
theorem C1_loop_closure (cfg : Config) (env : KubeEnv) (f : StateFile)
    (now ts : Int) (s : StateData) (current : String) (contexts : List String)
    (hload : stateLoad f = .ok s)
    (hts : timeSinceLastActivity f now = .ok ts)
    (hcur : GetCurrentContext env.rawCurrent = .ok current)
    (hnsf : cfg.safety.neverSwitchFrom.contains current = false)
    (hnd : ¬(current = cfg.defaultContext))
    (helapsed : cfg.GetTimeoutForContext current ≤ ts)
    (hnst : cfg.safety.neverSwitchTo.contains cfg.defaultContext = false)
    (hlist : GetAvailableContexts env.rawContexts = .ok contexts)
    (hmem : contexts.contains cfg.defaultContext = true)
    (hpos : 0 < now)
    (htrim : trimS cfg.defaultContext = cfg.defaultContext)
    (hdne : cfg.defaultContext ≠ "")
    (hciT : cfg.timeout.checkInterval < cfg.GetTimeoutForContext cfg.defaultContext) :
    (checkTimeout cfg env f now).result = .ok ()
      ∧ (checkTimeout cfg env f now).file
        = .good ⟨now, cfg.defaultContext, stateVersion⟩
      ∧ Cmd.useCtx cfg.defaultContext ∈ (checkTimeout cfg env f now).procs
      ∧ timeSinceLastActivity (checkTimeout cfg env f now).file
          (now + cfg.timeout.checkInterval) = .ok cfg.timeout.checkInterval
      ∧ cfg.timeout.checkInterval < cfg.GetTimeoutForContext cfg.defaultContext
      ∧ ∀ t, Cmd.useCtx t ∉
          (checkTimeout cfg (checkTimeout cfg env f now).env
            (checkTimeout cfg env f now).file
            (now + cfg.timeout.checkInterval)).procs := by
  have hswitch : SwitchContextSafe env cfg.defaultContext cfg.safety.neverSwitchTo
      = (.ok { env with rawCurrent := some cfg.defaultContext },
          [.currentCtx, .listCtx, .useCtx cfg.defaultContext]) := by
    unfold SwitchContextSafe SwitchContext
    rw [if_neg (by simp only [hnst]; decide)]
    rw [hcur]
    simp only []
    rw [if_neg hnd, hlist]
    simp only []
    rw [if_pos hmem]
  have hmain : checkTimeout cfg env f now
      = ⟨.ok (), .good ⟨now, cfg.defaultContext, stateVersion⟩,
          { env with rawCurrent := some cfg.defaultContext },
          [.currentCtx, .currentCtx, .listCtx, .useCtx cfg.defaultContext]⟩ := by
    unfold checkTimeout
    rw [hts, hcur]
    simp only []
    rw [if_neg (by simp only [hnsf]; decide), if_neg hnd, if_pos helapsed, hswitch]
    simp only []
    unfold stateRecordActivity
    rw [hload]
    simp [stateSave]
  have hnn : ¬(now = 0) := by omega
  have hts2 := timeSince_of_fresh cfg.defaultContext now cfg.timeout.checkInterval hnn
  have hcur2 : GetCurrentContext (some cfg.defaultContext) = .ok cfg.defaultContext := by
    simp [GetCurrentContext, htrim, hdne]
  have hprocs2 : (checkTimeout cfg { env with rawCurrent := some cfg.defaultContext }
      (.good ⟨now, cfg.defaultContext, stateVersion⟩)
      (now + cfg.timeout.checkInterval)).procs = [.currentCtx] := by
    unfold checkTimeout
    rw [hts2]
    show (match GetCurrentContext (some cfg.defaultContext) with
      | Except.error _ => _ | Except.ok c => _ : TickResult).procs = _
    rw [hcur2]
    simp only []
    by_cases h1 : cfg.safety.neverSwitchFrom.contains cfg.defaultContext = true
    · rw [if_pos h1]
    · rw [if_neg h1]
      simp
  refine ⟨by rw [hmain], by rw [hmain], by rw [hmain]; simp, by rw [hmain]; exact hts2,
    hciT, fun t => ?_⟩
  rw [hmain]
  simp only []
  rw [hprocs2]
  simp

/-- A valid configuration with no per-context overrides, used to witness
the amended claim C1. -/
def cfgC1w : Config :=
  ⟨⟨100, 30⟩, "local", [], ⟨true, "info", "", 0, 0⟩, ⟨true, "both", ""⟩,
    ⟨true, [], [], true⟩, "state.json"⟩

/-- External-tool state for the C1 witness. -/
def envC1w : KubeEnv := ⟨some "prod", some "prod\nlocal"⟩

/-- Witness for the amended claim C1: a tick at time 200 on context "prod"
with a record from time 5 switches to "local", rewrites the record, and
the next tick at 230 observes elapsed 30 < 100 and spawns no switch. -/
theorem C1_loop_closure_witness :
    cfgC1w.GetTimeoutForContext "prod" ≤ 195
      ∧ cfgC1w.timeout.checkInterval < cfgC1w.GetTimeoutForContext cfgC1w.defaultContext
      ∧ ((checkTimeout cfgC1w envC1w (.good ⟨5, "prod", 1⟩) 200).result = .ok ()
        ∧ (checkTimeout cfgC1w envC1w (.good ⟨5, "prod", 1⟩) 200).file
          = .good ⟨200, cfgC1w.defaultContext, stateVersion⟩
        ∧ Cmd.useCtx cfgC1w.defaultContext
          ∈ (checkTimeout cfgC1w envC1w (.good ⟨5, "prod", 1⟩) 200).procs
        ∧ timeSinceLastActivity (checkTimeout cfgC1w envC1w (.good ⟨5, "prod", 1⟩) 200).file
            (200 + cfgC1w.timeout.checkInterval) = .ok cfgC1w.timeout.checkInterval
        ∧ cfgC1w.timeout.checkInterval < cfgC1w.GetTimeoutForContext cfgC1w.defaultContext
        ∧ ∀ t, Cmd.useCtx t ∉
            (checkTimeout cfgC1w (checkTimeout cfgC1w envC1w (.good ⟨5, "prod", 1⟩) 200).env
              (checkTimeout cfgC1w envC1w (.good ⟨5, "prod", 1⟩) 200).file
              (200 + cfgC1w.timeout.checkInterval)).procs) :=
  ⟨by decide, by decide,
    C1_loop_closure cfgC1w envC1w (.good ⟨5, "prod", 1⟩) 200 195 ⟨5, "prod", 1⟩
      "prod" ["prod", "local"] rfl rfl rfl rfl (by decide) (by decide) rfl rfl
      (by decide) (by decide) (by decide) (by decide) (by decide)⟩

end Kct
